import Mathlib

/-!
# Verification of the image-optimizer processing pipeline (`utils.py`)

Shallow embedding of the processing functions of `src/utils.py`:
`SOCIAL_MEDIA_SIZES`, `sanitize_text`, `process_with_gemini`,
`smart_crop_gemini`, `optimize_for_platform` and `process_image_complete`.

Modelling conventions:
* Python floats are modelled as exact rationals (`ℚ`).  Every float operation
  appearing in the source (`max`/`min`/comparisons, `*`, `/`, `abs`, the
  constants `0.01` and `0.2`) is exact on the rationals involved; rounding of
  float arithmetic is not modelled.
* `int(x)` (Python truncation toward zero) is `pyInt`.
* In-memory images (PIL images / numpy arrays) are `Img`: a width, a height, a
  mode string and an abstract pixel function.  Resampling content
  (`Image.Resampling.LANCZOS`) is an uninterpreted parameter `resample`;
  cropping/slicing is modelled exactly.
* Fallible operations (`Image.open`, file writes, the network call to the
  external model) are inputs of type `Except`; a Python function that can raise
  is embedded as a function into `Except String _`.
-/

/-- Python `int(x)` for a float `x`: truncation toward zero. -/
def pyInt (q : ℚ) : Int :=
  if q < 0 then -(((-q).num.toNat / (-q).den : ℕ) : Int)
  else ((q.num.toNat / q.den : ℕ) : Int)

/-- Python `s.lower()`: charwise lowercasing (exact for the ASCII strings the
program applies it to). -/
def pyLower (s : String) : String := ⟨s.data.map Char.toLower⟩

/-- An in-memory image: pixel dimensions, PIL mode string, abstract content. -/
structure Img where
  width : Nat
  height : Nat
  mode : String
  pix : Nat → Nat → Nat

/-- Python dict lookup `d.get(k)` / `d[k]` on a small string-keyed literal dict,
as an association list (`utils.py` line 214 / 339 / 352). -/
def dictGet (k : String) : List (String × Nat × Nat) → Option (Nat × Nat)
  | [] => none
  | (a, v) :: rest => if k = a then some v else dictGet k rest

/-- The `SOCIAL_MEDIA_SIZES` registry (`utils.py` lines 27-36). -/
def SOCIAL_MEDIA_SIZES : List (String × Nat × Nat) :=
  [("instagram", 1080, 1080),
   ("instagram_story", 1080, 1920),
   ("twitter", 1600, 900),
   ("linkedin", 1200, 627),
   ("facebook", 1080, 1920),
   ("facebook_story", 1080, 1920),
   ("pinterest", 1000, 1500),
   ("youtube_thumbnail", 1280, 720)]

/-- Constant `MIN_RESOLUTION_HEIGHT` (`utils.py` line 39). -/
def MIN_RESOLUTION_HEIGHT : Nat := 720

/-- Constant `MIN_QUALITY` (`utils.py` line 40). -/
def MIN_QUALITY : Nat := 98

lemma pyInt_of_nonneg {q : ℚ} (h : 0 ≤ q) :
    pyInt q = ((q.num.toNat / q.den : ℕ) : Int) := by
  unfold pyInt
  rw [if_neg (not_lt.mpr h)]

lemma pyInt_nonneg {q : ℚ} (h : 0 ≤ q) : 0 ≤ pyInt q := by
  rw [pyInt_of_nonneg h]
  exact Int.ofNat_nonneg _

lemma one_le_pyInt {q : ℚ} (h : 1 ≤ q) : 1 ≤ pyInt q := by
  have h0 : (0 : ℚ) ≤ q := le_trans zero_le_one h
  rw [pyInt_of_nonneg h0]
  have hden : (0 : ℚ) < (q.den : ℚ) := by exact_mod_cast q.pos
  have hq : ((q.num : ℚ) / (q.den : ℚ)) = q := Rat.num_div_den q
  have hle : (q.den : ℚ) ≤ (q.num : ℚ) := by
    rw [← hq] at h
    exact (one_le_div hden).mp h
  have hle' : (q.den : Int) ≤ q.num := by exact_mod_cast hle
  have hnum : q.den ≤ q.num.toNat := by omega
  have : 1 ≤ q.num.toNat / q.den := (Nat.one_le_div_iff q.pos).mpr hnum
  exact_mod_cast this

lemma pyInt_natCast (n : ℕ) : pyInt (n : ℚ) = (n : Int) := by
  rw [pyInt_of_nonneg (by positivity)]
  simp [Rat.num_natCast, Rat.den_natCast]

lemma pyInt_zero : pyInt 0 = 0 := by
  simpa using pyInt_natCast 0

/-- Every registry entry has positive dimensions and an already-lowercase key
(so `platform.lower()` at `utils.py` line 214/217 is the identity on keys). -/
lemma dictGet_registry {p : String} {s : Nat × Nat}
    (h : dictGet p SOCIAL_MEDIA_SIZES = some s) :
    0 < s.1 ∧ 0 < s.2 ∧ pyLower p = p := by
  simp only [SOCIAL_MEDIA_SIZES, dictGet] at h
  split_ifs at h with h1 h2 h3 h4 h5 h6 h7 h8 <;> cases h <;> subst_vars <;>
    exact ⟨by decide, by decide, by decide⟩

/-- Embedding of `sanitize_text` (`utils.py` lines 64-73).  In the embedding every string is
valid Unicode, so the `encode('utf-8').decode('utf-8')` round trip always
succeeds and the `UnicodeError` branch is unreachable; the function reduces to
the falsy check on line 66. -/
def sanitize_text (text : String) : String :=
  if text = "" then "" else text

lemma sanitize_text_eq (text : String) : sanitize_text text = text := by
  unfold sanitize_text
  split <;> simp_all

/-- The `AI_MODELS` dict, as far as the processing code observes it: the
`gemini_loaded` flag (`load_models`, `utils.py` lines 43-62). -/
structure Models where
  gemini_loaded : Bool
deriving DecidableEq

/-- A JSON value found in the `bounding_box` list of the model's response:
a number, or anything non-numeric (on which Python's
`max(0.0, min(1.0, v))` raises `TypeError`). -/
inductive JVal where
  | num (q : ℚ)
  | other
deriving DecidableEq

/-- The JSON value bound to the `bounding_box` key, when present: an array, or
a non-array value (rejected by the `isinstance(bounding_box, list)` check at
`utils.py` line 148). -/
inductive BBField where
  | list (xs : List JVal)
  | nonlist
deriving DecidableEq

/-- The parsed JSON object returned by `json.loads` at `utils.py` line 141:
each of the three keys read by the code is present or absent. -/
structure GeminiJson where
  caption : Option String
  bounding_box : Option BBField
  hashtags : Option String
deriving DecidableEq

/-- Outcome of stripping the code-fence wrapper and running `json.loads`
(`utils.py` lines 130-141): either parsing raised (non-JSON text, or a
non-object result on which `.get` raises) or an object was obtained. -/
inductive GeminiResponse where
  | parseFail
  | parsed (j : GeminiJson)
deriving DecidableEq

/-- One step of the bounding-box clamp at `utils.py` lines 152-157:
`max(0.0, min(1.0, v))`, raising (`none`) on a non-numeric element. -/
def clampCoord : JVal → Option ℚ
  | .num q => some (max 0 (min 1 q))
  | .other => none

/-- The clamp applied to every element of the list (lines 152-157); `none` as
soon as one element raises. -/
def clampList : List JVal → Option (List ℚ)
  | [] => some []
  | v :: vs =>
    match clampCoord v, clampList vs with
    | some q, some qs => some (q :: qs)
    | _, _ => none

/-- Embedding of `process_with_gemini` (`utils.py` lines 76-170).
The network call `models["gemini"].generate_content` and the response-text
handling are summarised by the `response` argument: `.error` if reading the
image or the API call raised (caught at line 168), `.ok .parseFail` if the
response text did not parse as a JSON object (caught at line 164), and
`.ok (.parsed j)` for a parsed object.  The unreachable wildcard in the
four-element match models the `IndexError`/`TypeError` that Python indexing
would raise (also caught at line 164). -/
def process_with_gemini (models : Models) (platform : String)
    (response : Except Unit GeminiResponse) : String × List ℚ × String :=
  if models.gemini_loaded then
    match response with
    | .error _ =>
      ("Image analysis failed.", [0, 0, 1, 1], "#" ++ platform)
    | .ok .parseFail =>
      ("Image analysis failed due to processing error.", [0, 0, 1, 1], "#" ++ platform)
    | .ok (.parsed result) =>
      let caption := result.caption.getD "No caption generated."
      let hashtags := result.hashtags.getD ("#" ++ platform)
      let bb0 : List JVal :=
        match result.bounding_box.getD (.list [.num 0, .num 0, .num 1, .num 1]) with
        | .list xs => if xs.length ≠ 4 then [.num 0, .num 0, .num 1, .num 1] else xs
        | .nonlist => [.num 0, .num 0, .num 1, .num 1]
      match clampList bb0 with
      | none =>
        ("Image analysis failed due to processing error.", [0, 0, 1, 1], "#" ++ platform)
      | some c =>
        match c with
        | [x1, y1, x2, y2] =>
          if x2 ≤ x1 ∨ y2 ≤ y1 then (caption, [0, 0, 1, 1], hashtags)
          else (caption, [x1, y1, x2, y2], hashtags)
        | _ =>
          ("Image analysis failed due to processing error.", [0, 0, 1, 1], "#" ++ platform)
  else
    ("No caption could be generated. Gemini model not loaded.", [0, 0, 1, 1], "#ai #image")

/-- Result of `smart_crop_gemini`: the Python function either returns the very
image object it was given (`return image`) or a freshly constructed image
(`Image.fromarray(cropped)`); the pipeline distinguishes the two by object
identity (`new_image is not image`, `utils.py` line 295). -/
inductive CropResult where
  | same
  | new (img : Img)

/-- The crop window computed at `utils.py` lines 183-197: normalized
coordinates scaled to pixels and truncated by `int(...)`, padded by
`int(side * 0.2)`, then clamped to the image bounds. -/
def cropWindow (image : Img) (b : List ℚ) : Int × Int × Int × Int :=
  let x1 := pyInt (b[0]! * (image.width : ℚ))
  let y1 := pyInt (b[1]! * (image.height : ℚ))
  let x2 := pyInt (b[2]! * (image.width : ℚ))
  let y2 := pyInt (b[3]! * (image.height : ℚ))
  let pad_x := pyInt (((x2 - x1 : Int) : ℚ) * (2 / 10))
  let pad_y := pyInt (((y2 - y1 : Int) : ℚ) * (2 / 10))
  (max 0 (x1 - pad_x), max 0 (y1 - pad_y),
   min (image.width : Int) (x2 + pad_x), min (image.height : Int) (y2 + pad_y))

/-- Embedding of `smart_crop_gemini` (`utils.py` lines 173-208).  The numpy slice
`img_array[y1:y2, x1:x2]` (with the window already clamped in bounds and
checked non-degenerate) keeps `mode` and offsets the pixel content.  The
enclosing `try/except` can only return the original image, which the explicit
guards already do, so the embedding is total. -/
def smart_crop_gemini (image : Img) (bounding_box : List ℚ) : CropResult :=
  if bounding_box = [] ∨ bounding_box.length ≠ 4 then .same
  else
    match cropWindow image bounding_box with
    | (x1, y1, x2, y2) =>
      if x2 ≤ x1 ∨ y2 ≤ y1 ∨ x2 ≤ 0 ∨ y2 ≤ 0 then .same
      else .new { width := (x2 - x1).toNat, height := (y2 - y1).toNat,
                  mode := image.mode,
                  pix := fun px py => image.pix (x1.toNat + px) (y1.toNat + py) }

/-- The image an application of `CropResult` leaves in the pipeline variable. -/
def CropResult.getImg : CropResult → Img → Img
  | .same, orig => orig
  | .new i, _ => i

/-- Pixel content produced by a Lanczos resample, left uninterpreted:
`resample source newWidth newHeight` is the new pixel function. -/
def ResampleFn : Type := Img → Nat → Nat → (Nat → Nat → Nat)

/-- Embedding of `image.resize((nw, nh), Image.Resampling.LANCZOS)`: Pillow raises
`ValueError` on a non-positive target dimension, otherwise produces an image of
exactly the requested size. -/
def pilResize (resample : ResampleFn) (img : Img) (nw nh : Nat) : Except String Img :=
  if nw = 0 ∨ nh = 0 then .error "ValueError: height and width must be > 0"
  else .ok { width := nw, height := nh, mode := img.mode, pix := resample img nw nh }

/-- Embedding of `image.crop((left, top, right, bottom))`: the result has exactly the box's
size; source pixels outside the image are filled with 0 (PIL pads). -/
def pilCrop (img : Img) (left top right bottom : Int) : Img :=
  { width := (right - left).toNat, height := (bottom - top).toNat, mode := img.mode,
    pix := fun px py =>
      if 0 ≤ left + px ∧ left + px < (img.width : Int) ∧
         0 ≤ top + py ∧ top + py < (img.height : Int) then
        img.pix (left + px).toNat (top + py).toNat
      else 0 }

/-- Aspect ratio `image.width / image.height` at `utils.py` line 224 (computed on the
original image, before any resize). -/
def imgAspect (image : Img) : ℚ := (image.width : ℚ) / (image.height : ℚ)

/-- Mode conversion to RGB at `utils.py` lines 220-221:
affects only the mode, never the dimensions. -/
def convertRGB (image : Img) : Img :=
  if image.mode = "RGBA" ∨ image.mode = "P" then { image with mode := "RGB" } else image

/-- The minimum-resolution upscale at `utils.py` lines 228-231: if the height
is under 720, resize to height 720 with width `int(720 * img_aspect)`. -/
def ensureMinRes (resample : ResampleFn) (image : Img) : Except String Img :=
  if image.height < MIN_RESOLUTION_HEIGHT then
    pilResize resample image
      (pyInt ((MIN_RESOLUTION_HEIGHT : ℚ) * imgAspect image)).toNat MIN_RESOLUTION_HEIGHT
  else .ok image

/-- The center crop at `utils.py` lines 244-249 applied to the
branch-resized image: offsets use Python floor division `//`. -/
def centerCrop (image : Img) (target : Nat × Nat) : Img :=
  pilCrop image
    (((image.width : Int) - (target.1 : Int)).fdiv 2)
    (((image.height : Int) - (target.2 : Int)).fdiv 2)
    ((((image.width : Int) - (target.1 : Int)).fdiv 2) + (target.1 : Int))
    ((((image.height : Int) - (target.2 : Int)).fdiv 2) + (target.2 : Int))

/-- The aspect-ratio adjustment at `utils.py` lines 234-252.  `a` is the
original image's aspect (line 224), `t` the target aspect (line 225); the float
literal `0.01` is the rational `1/100`.  The guard `a = 0` marks where Python's
`target_size[0] / img_aspect` would raise `ZeroDivisionError`. -/
def fitAspect (resample : ResampleFn) (a t : ℚ) (image : Img) (target : Nat × Nat) :
    Except String Img :=
  if |a - t| > 1 / 100 then
    match (if a > t then
             pilResize resample image (pyInt ((target.2 : ℚ) * a)).toNat target.2
           else if a = 0 then .error "ZeroDivisionError: float division by zero"
           else pilResize resample image target.1 (pyInt ((target.1 : ℚ) / a)).toNat) with
    | .error e => .error e
    | .ok image2 => .ok (centerCrop image2 target)
  else pilResize resample image target.1 target.2

/-- Embedding of `optimize_for_platform` (`utils.py` lines 211-257).  The function re-raises
any internal exception (line 257), embedded as `Except.error`.  The guard
`image.height = 0` marks where `image.width / image.height` would raise
`ZeroDivisionError`. -/
def optimize_for_platform (resample : ResampleFn) (image0 : Img) (platform : String) :
    Except String Img :=
  match dictGet (pyLower platform) SOCIAL_MEDIA_SIZES with
  | none => .error ("Unsupported platform: " ++ platform)
  | some target =>
    if (convertRGB image0).height = 0 then .error "ZeroDivisionError: division by zero"
    else
      match ensureMinRes resample (convertRGB image0) with
      | .error e => .error e
      | .ok image1 =>
        fitAspect resample (imgAspect (convertRGB image0))
          ((target.1 : ℚ) / (target.2 : ℚ)) image1 target

/-- Python `s.replace("_", " ")`: the pattern is a single character, so the
replacement is a charwise map. -/
def replace_underscores (s : String) : String :=
  ⟨s.data.map fun c => if c = '_' then ' ' else c⟩

/-- Helper for `pyTitle`: the boolean records whether the previous character
was alphabetic. -/
def pyTitleGo : Bool → List Char → List Char
  | _, [] => []
  | prevAlpha, c :: cs =>
    (if c.isAlpha then (if prevAlpha then c.toLower else c.toUpper) else c) ::
      pyTitleGo c.isAlpha cs

/-- Python `s.title()`: uppercase each letter that follows a non-letter,
lowercase the rest (exact for the ASCII platform names it is applied to). -/
def pyTitle (s : String) : String := ⟨pyTitleGo false s.data⟩

/-- The success/error record returned by `process_image_complete`
(`utils.py` lines 337-345 and 349-357); `error = none` marks the success
variant, whose `optimized_image` is always populated. -/
structure ResultRecord where
  error : Option String
  platform : String
  size : Nat × Nat
  optimized_image : Option String
  caption_text : String
  hashtags : String
  enhanced : Bool
  smart_cropped : Bool
deriving DecidableEq

/-- A pipeline run's observable outcome: the returned record plus the files it
wrote (the optimized image and the caption sidecar), when the run got far
enough to write them. -/
structure PipelineOutput where
  result : ResultRecord
  savedImage : Option Img := none
  captionFile : Option String := none

/-- The fallible external operations of one `process_image_complete` run:
`Image.open` (line 268), `image.save(original_path)` (line 273), the
`process_with_gemini` call (line 279, which can itself raise — the contract
violation the pipeline guards against), `image.save(output_path)`
(lines 317-320) and the caption-file write (lines 327-328).  The best-effort
temp-file removal (lines 331-335) has no observable effect on the outcome. -/
structure Env where
  decode : Except String Img
  saveTemp : Except String Unit
  locator : Except String (String × List ℚ × String)
  saveOutput : Except String Unit
  saveCaption : Except String Unit

/-- The error record built at `utils.py` lines 349-357 (note: the `size`
lookup there uses `.get` with the `(0, 0)` default and the *unlowered*
platform key). -/
def errorRecord (platform : String) (msg : String) : ResultRecord :=
  { error := some ("Processing failed: " ++ msg),
    platform := pyTitle (replace_underscores platform),
    size := (dictGet platform SOCIAL_MEDIA_SIZES).getD (0, 0),
    optimized_image := none,
    caption_text := "Image processing failed.",
    hashtags := "#" ++ platform,
    enhanced := false,
    smart_cropped := false }

/-- STEP 1 of the pipeline (`utils.py` lines 276-288): call the locator behind
its own try/fallback when a loaded model is available, otherwise use the
"not loaded" triple.  `AI_MODELS = none` models a falsy `AI_MODELS` argument. -/
def locateStep (AI_MODELS : Option Models)
    (loc : Except String (String × List ℚ × String)) (platform : String) :
    String × List ℚ × String :=
  match AI_MODELS with
  | some m =>
    if m.gemini_loaded then
      match loc with
      | .ok t => t
      | .error _ =>
        ("An image showing scenery or objects.", [0, 0, 1, 1],
         "#" ++ platform ++ " #photo #image")
    else
      ("Image analysis not available. Gemini model not loaded.", [0, 0, 1, 1],
       "#" ++ platform)
  | none =>
    ("Image analysis not available. Gemini model not loaded.", [0, 0, 1, 1],
     "#" ++ platform)

/-- STEP 2 of the pipeline (`utils.py` lines 290-299): apply the smart crop
when enabled and the bounding box is truthy; `smart_cropped` is set exactly
when `smart_crop_gemini` returned a new object. -/
def cropStep (enabled : Bool) (image : Img) (bounding_box : List ℚ) : Img × Bool :=
  if enabled && !bounding_box.isEmpty then
    match smart_crop_gemini image bounding_box with
    | .same => (image, false)
    | .new ni => (ni, true)
  else (image, false)

/-- Embedding of `process_image_complete` (`utils.py` lines 259-357).  `process_id` and
`timestamp_val` stand for the generated uuid and millisecond timestamp.  The
outer `try/except` (line 346) turns any raise from an unguarded step into the
error record, embedded here by the explicit `.error` branches; the final
registry lookup models the unlowered `SOCIAL_MEDIA_SIZES[platform]` on
line 339, whose `KeyError` carries the quoted key as its message. -/
def process_image_complete (env : Env) (platform format : String)
    (smart_crop_enabled : Bool) (AI_MODELS : Option Models)
    (resample : ResampleFn) (process_id : String) (timestamp_val : Nat) :
    PipelineOutput :=
  match env.decode with
  | .error e => { result := errorRecord platform e }
  | .ok image =>
    match env.saveTemp with
    | .error e => { result := errorRecord platform e }
    | .ok _ =>
      match locateStep AI_MODELS env.locator platform with
      | (caption, bounding_box, hashtags) =>
        match cropStep smart_crop_enabled image bounding_box with
        | (image1, smart_cropped) =>
          match optimize_for_platform resample image1 platform with
          | .error e => { result := errorRecord platform e }
          | .ok image2 =>
            match env.saveOutput with
            | .error e => { result := errorRecord platform e }
            | .ok _ =>
              match env.saveCaption with
              | .error e => { result := errorRecord platform e,
                              savedImage := some image2 }
              | .ok _ =>
                match dictGet platform SOCIAL_MEDIA_SIZES with
                | none =>
                  { result := errorRecord platform ("'" ++ platform ++ "'"),
                    savedImage := some image2,
                    captionFile :=
                      some (sanitize_text caption ++ "\n\n" ++ sanitize_text hashtags) }
                | some sz =>
                  { result :=
                      { error := none,
                        platform := pyTitle (replace_underscores platform),
                        size := sz,
                        optimized_image :=
                          some ("/media/optimized/" ++ platform ++ "_" ++ process_id ++
                                "_" ++ toString timestamp_val ++ "." ++ pyLower format),
                        caption_text := sanitize_text caption,
                        hashtags := sanitize_text hashtags,
                        enhanced := false,
                        smart_cropped := smart_cropped },
                    savedImage := some image2,
                    captionFile :=
                      some (sanitize_text caption ++ "\n\n" ++ sanitize_text hashtags) }

/-- Split a character list at every newline (the lines of a text file). -/
def splitNl : List Char → List (List Char)
  | [] => [[]]
  | c :: cs =>
    if c = '\n' then [] :: splitNl cs
    else
      match splitNl cs with
      | [] => [[c]]
      | l :: ls => (c :: l) :: ls

/-- Join lines back with newlines. -/
def joinNl : List (List Char) → List Char
  | [] => []
  | [l] => l
  | l :: ls => l ++ '\n' :: joinNl ls

/-- The sidecar parse described by the spec's round-trip property: first line
is the caption, the second line must be blank, the remaining lines are the
hashtags. -/
def parseSidecar (s : String) : Option (String × String) :=
  match splitNl s.data with
  | caption :: blank :: rest =>
    if blank = [] ∧ rest ≠ [] then some (⟨caption⟩, ⟨joinNl rest⟩) else none
  | _ => none

lemma centerCrop_width (image : Img) (target : Nat × Nat) :
    (centerCrop image target).width = target.1 := by
  simp only [centerCrop, pilCrop]
  generalize ((image.width : Int) - (target.1 : Int)).fdiv 2 = l
  omega

lemma centerCrop_height (image : Img) (target : Nat × Nat) :
    (centerCrop image target).height = target.2 := by
  simp only [centerCrop, pilCrop]
  generalize ((image.height : Int) - (target.2 : Int)).fdiv 2 = t
  omega

lemma ensureMinRes_ok (resample : ResampleFn) (image : Img)
    (hw : 0 < image.width) (hh : 0 < image.height) :
    ∃ i, ensureMinRes resample image = .ok i := by
  unfold ensureMinRes
  split_ifs with hlt
  · unfold pilResize
    rw [if_neg]
    · exact ⟨_, rfl⟩
    · push_neg
      refine ⟨?_, by decide⟩
      have hhq : (0 : ℚ) < (image.height : ℚ) := by exact_mod_cast hh
      have hw1 : (1 : ℚ) ≤ (image.width : ℚ) := by exact_mod_cast hw
      have hhle : (image.height : ℚ) ≤ 720 := by
        have : image.height ≤ 720 := by
          unfold MIN_RESOLUTION_HEIGHT at hlt; omega
        exact_mod_cast this
      have h1 : (1 : ℚ) ≤ (MIN_RESOLUTION_HEIGHT : ℚ) * imgAspect image := by
        unfold imgAspect MIN_RESOLUTION_HEIGHT
        rw [← mul_div_assoc, le_div_iff₀ hhq, one_mul]
        push_cast
        nlinarith
      have h2 := one_le_pyInt h1
      omega
  · exact ⟨_, rfl⟩

lemma fitAspect_ok {resample : ResampleFn} {image : Img} {tw th : Nat} (a : ℚ)
    (ha : 0 < a) (htw : 0 < tw) (hth : 0 < th) :
    ∃ out, fitAspect resample a ((tw : ℚ) / (th : ℚ)) image (tw, th) = .ok out ∧
      out.width = tw ∧ out.height = th := by
  have htwq : (0 : ℚ) < (tw : ℚ) := by exact_mod_cast htw
  have hthq : (0 : ℚ) < (th : ℚ) := by exact_mod_cast hth
  have htw1 : (1 : ℚ) ≤ (tw : ℚ) := by exact_mod_cast htw
  have hth1 : (1 : ℚ) ≤ (th : ℚ) := by exact_mod_cast hth
  unfold fitAspect
  dsimp only
  split_ifs with htol hgt ha0
  · -- source relatively wider: resize to target height, crop width
    have hgt' : (tw : ℚ) / (th : ℚ) < a := hgt
    have hlt : (tw : ℚ) < a * (th : ℚ) := by rwa [div_lt_iff₀ hthq] at hgt'
    have h1 : (1 : ℚ) ≤ (th : ℚ) * a := by nlinarith
    have h2 := one_le_pyInt h1
    unfold pilResize
    rw [if_neg (by push_neg; exact ⟨by omega, by omega⟩)]
    exact ⟨_, rfl, centerCrop_width _ _, centerCrop_height _ _⟩
  · exact absurd ha0 (ne_of_gt ha)
  · -- source relatively taller: resize to target width, crop height
    have hne : a ≠ (tw : ℚ) / (th : ℚ) := by
      intro he
      rw [he, sub_self, abs_zero] at htol
      norm_num at htol
    have hlt : a < (tw : ℚ) / (th : ℚ) := lt_of_le_of_ne (not_lt.mp hgt) hne
    have hlt2 : a * (th : ℚ) < (tw : ℚ) := by rwa [lt_div_iff₀ hthq] at hlt
    have hlt3 : (th : ℚ) < (tw : ℚ) / a := by
      rw [lt_div_iff₀ ha]
      nlinarith
    have h1 : (1 : ℚ) ≤ (tw : ℚ) / a := by linarith
    have h2 := one_le_pyInt h1
    unfold pilResize
    rw [if_neg (by push_neg; exact ⟨by omega, by omega⟩)]
    exact ⟨_, rfl, centerCrop_width _ _, centerCrop_height _ _⟩
  · -- aspect ratios equal within tolerance: direct resize
    unfold pilResize
    rw [if_neg (by push_neg; exact ⟨by omega, by omega⟩)]
    exact ⟨_, rfl, rfl, rfl⟩

lemma convertRGB_width (image : Img) : (convertRGB image).width = image.width := by
  unfold convertRGB; split <;> rfl

lemma convertRGB_height (image : Img) : (convertRGB image).height = image.height := by
  unfold convertRGB; split <;> rfl

lemma optimize_for_platform_ok (resample : ResampleFn) (image0 : Img) {platform : String}
    {tw th : Nat} (hl : dictGet (pyLower platform) SOCIAL_MEDIA_SIZES = some (tw, th))
    (htw : 0 < tw) (hth : 0 < th) (hw : 0 < image0.width) (hh : 0 < image0.height) :
    ∃ out, optimize_for_platform resample image0 platform = .ok out ∧
      out.width = tw ∧ out.height = th := by
  unfold optimize_for_platform
  rw [hl]
  dsimp only
  have hcw := convertRGB_width image0
  have hch := convertRGB_height image0
  rw [if_neg (by omega : ¬ (convertRGB image0).height = 0)]
  obtain ⟨i1, hi1⟩ :=
    ensureMinRes_ok resample (convertRGB image0) (by omega) (by omega)
  rw [hi1]
  have ha : 0 < imgAspect (convertRGB image0) := by
    unfold imgAspect
    have h1 : (0 : ℚ) < ((convertRGB image0).width : ℚ) := by exact_mod_cast by omega
    have h2 : (0 : ℚ) < ((convertRGB image0).height : ℚ) := by exact_mod_cast by omega
    positivity
  exact fitAspect_ok _ ha htw hth

/-- C1: for every platform key in the registry and every source image with
positive width and height, `optimize_for_platform` returns an image whose
pixel dimensions exactly equal the registered `(width, height)` for that
platform — covering the within-tolerance direct-resize branch and both
resize-then-center-crop branches. -/
theorem c1_optimize_for_platform_exact_dims (platform : String) (tw th : Nat)
    (hl : dictGet platform SOCIAL_MEDIA_SIZES = some (tw, th))
    (resample : ResampleFn) (img : Img)
    (hw : 0 < img.width) (hh : 0 < img.height) :
    ∃ out, optimize_for_platform resample img platform = .ok out ∧
      out.width = tw ∧ out.height = th := by
  obtain ⟨htw, hth, hlow⟩ := dictGet_registry hl
  exact optimize_for_platform_ok resample img (by rw [hlow]; exact hl) htw hth hw hh

theorem c1_optimize_for_platform_exact_dims_witness :
    dictGet "twitter" SOCIAL_MEDIA_SIZES = some (1600, 900) ∧
    ∃ out, optimize_for_platform (fun _ _ _ => fun _ _ => 0)
        { width := 800, height := 600, mode := "RGB", pix := fun _ _ => 0 } "twitter" =
        .ok out ∧ out.width = 1600 ∧ out.height = 900 :=
  ⟨by decide,
   c1_optimize_for_platform_exact_dims "twitter" 1600 900 (by decide) _ _
     (by decide) (by decide)⟩

/-- C2: whenever the locator parses a bounding box that is a 4-element list of
numbers, the box returned after validation has all four coordinates in
`[0, 1]` and satisfies `x2 > x1` and `y2 > y1`; and whenever the clamped box
is degenerate (`x2 ≤ x1` or `y2 ≤ y1`) the returned region is exactly the
full-image region `(0, 0, 1, 1)`. -/
theorem c2_bounding_box_validation (platform : String) (cap hsh : Option String)
    (a b c d : ℚ) :
    ∃ x1 y1 x2 y2 : ℚ,
      (process_with_gemini ⟨true⟩ platform
          (.ok (.parsed ⟨cap, some (.list [.num a, .num b, .num c, .num d]), hsh⟩))).2.1 =
        [x1, y1, x2, y2] ∧
      0 ≤ x1 ∧ x1 ≤ 1 ∧ 0 ≤ y1 ∧ y1 ≤ 1 ∧ 0 ≤ x2 ∧ x2 ≤ 1 ∧ 0 ≤ y2 ∧ y2 ≤ 1 ∧
      x1 < x2 ∧ y1 < y2 ∧
      ((max 0 (min 1 c) ≤ max 0 (min 1 a) ∨ max 0 (min 1 d) ≤ max 0 (min 1 b)) →
        (process_with_gemini ⟨true⟩ platform
            (.ok (.parsed ⟨cap, some (.list [.num a, .num b, .num c, .num d]), hsh⟩))).2.1 =
          [0, 0, 1, 1]) := by
  have hred : process_with_gemini ⟨true⟩ platform
      (.ok (.parsed ⟨cap, some (.list [.num a, .num b, .num c, .num d]), hsh⟩)) =
      if max 0 (min 1 c) ≤ max 0 (min 1 a) ∨ max 0 (min 1 d) ≤ max 0 (min 1 b)
      then (cap.getD "No caption generated.", [0, 0, 1, 1], hsh.getD ("#" ++ platform))
      else (cap.getD "No caption generated.",
            [max 0 (min 1 a), max 0 (min 1 b), max 0 (min 1 c), max 0 (min 1 d)],
            hsh.getD ("#" ++ platform)) := rfl
  rw [hred]
  by_cases hdeg : max 0 (min 1 c) ≤ max 0 (min 1 a) ∨ max 0 (min 1 d) ≤ max 0 (min 1 b)
  · rw [if_pos hdeg]
    exact ⟨0, 0, 1, 1, rfl, by norm_num, by norm_num, by norm_num, by norm_num,
      by norm_num, by norm_num, by norm_num, by norm_num, by norm_num, by norm_num,
      fun _ => rfl⟩
  · rw [if_neg hdeg]
    push_neg at hdeg
    refine ⟨max 0 (min 1 a), max 0 (min 1 b), max 0 (min 1 c), max 0 (min 1 d),
      rfl, le_max_left _ _, ?_, le_max_left _ _, ?_, le_max_left _ _, ?_,
      le_max_left _ _, ?_, hdeg.1, hdeg.2,
      fun hc => absurd hc (by push_neg; exact hdeg)⟩ <;>
    · apply max_le (by norm_num) (min_le_left _ _)

theorem c2_bounding_box_validation_witness :
    ∃ x1 y1 x2 y2 : ℚ,
      (process_with_gemini ⟨true⟩ "instagram"
          (.ok (.parsed ⟨some "cap",
            some (.list [.num (-2), .num (1/2), .num (3/4), .num 7]), some "#x"⟩))).2.1 =
        [x1, y1, x2, y2] ∧
      0 ≤ x1 ∧ x1 ≤ 1 ∧ 0 ≤ y1 ∧ y1 ≤ 1 ∧ 0 ≤ x2 ∧ x2 ≤ 1 ∧ 0 ≤ y2 ∧ y2 ≤ 1 ∧
      x1 < x2 ∧ y1 < y2 ∧
      ((max 0 (min 1 (3/4 : ℚ)) ≤ max 0 (min 1 (-2 : ℚ)) ∨
          max 0 (min 1 (7 : ℚ)) ≤ max 0 (min 1 (1/2 : ℚ))) →
        (process_with_gemini ⟨true⟩ "instagram"
            (.ok (.parsed ⟨some "cap",
              some (.list [.num (-2), .num (1/2), .num (3/4), .num 7]), some "#x"⟩))).2.1 =
          [0, 0, 1, 1]) :=
  c2_bounding_box_validation "instagram" (some "cap") (some "#x") (-2) (1/2) (3/4) 7

lemma cropWindow_full (image : Img) :
    cropWindow image [0, 0, 1, 1] = (0, 0, (image.width : Int), (image.height : Int)) := by
  have h0 : (([0, 0, 1, 1] : List ℚ)[0]!) = 0 := by decide
  have h1 : (([0, 0, 1, 1] : List ℚ)[1]!) = 0 := by decide
  have h2 : (([0, 0, 1, 1] : List ℚ)[2]!) = 1 := by decide
  have h3 : (([0, 0, 1, 1] : List ℚ)[3]!) = 1 := by decide
  have hpw : 0 ≤ pyInt ((((image.width : Int) : ℚ)) * (2 / 10)) := by
    apply pyInt_nonneg; positivity
  have hph : 0 ≤ pyInt ((((image.height : Int) : ℚ)) * (2 / 10)) := by
    apply pyInt_nonneg; positivity
  simp only [cropWindow, h0, h1, h2, h3, zero_mul, one_mul, pyInt_zero, pyInt_natCast,
    sub_zero, zero_sub, Prod.mk.injEq]
  refine ⟨by omega, by omega, by omega, by omega⟩

lemma smart_crop_full {image : Img} (hw : 0 < image.width) (hh : 0 < image.height) :
    ∃ i, smart_crop_gemini image [0, 0, 1, 1] = .new i ∧
      i.width = image.width ∧ i.height = image.height ∧ i.mode = image.mode ∧
      ∀ px py, i.pix px py = image.pix px py := by
  unfold smart_crop_gemini
  rw [if_neg (by decide), cropWindow_full]
  dsimp only
  rw [if_neg (by push_neg; omega)]
  refine ⟨_, rfl, by dsimp only; omega, by dsimp only; omega, rfl, fun px py => ?_⟩
  simp

/-- C6: `smart_crop_gemini` never raises (it is total and always returns
either the original image or a new one); whenever the padded-and-clamped crop
window is degenerate or out of bounds (`x1 ≥ x2` or `y1 ≥ y2` or `x2 ≤ 0` or
`y2 ≤ 0`) it returns the original image object unchanged; and for the
full-image focus region `(0, 0, 1, 1)` the returned image's dimensions equal
the input image's dimensions. -/
theorem c6_smart_crop_safety :
    (∀ (image : Img) (b : List ℚ),
      smart_crop_gemini image b = .same ∨ ∃ i, smart_crop_gemini image b = .new i) ∧
    (∀ (image : Img) (b : List ℚ) (x1 y1 x2 y2 : Int),
      cropWindow image b = (x1, y1, x2, y2) →
      x1 ≥ x2 ∨ y1 ≥ y2 ∨ x2 ≤ 0 ∨ y2 ≤ 0 →
      smart_crop_gemini image b = .same) ∧
    (∀ image : Img,
      ((smart_crop_gemini image [0, 0, 1, 1]).getImg image).width = image.width ∧
      ((smart_crop_gemini image [0, 0, 1, 1]).getImg image).height = image.height) := by
  refine ⟨?_, ?_, ?_⟩
  · intro image b
    unfold smart_crop_gemini
    split_ifs with hgate
    · exact .inl rfl
    · rcases hcw : cropWindow image b with ⟨x1, y1, x2, y2⟩
      dsimp only
      split_ifs with hdeg
      · exact .inl rfl
      · exact .inr ⟨_, rfl⟩
  · intro image b x1 y1 x2 y2 hcw hdeg
    unfold smart_crop_gemini
    split_ifs with hgate
    · rfl
    · rw [hcw]
      dsimp only
      rw [if_pos hdeg]
  · intro image
    by_cases hwh : 0 < image.width ∧ 0 < image.height
    · obtain ⟨i, hi, hiw, hih, _, _⟩ := smart_crop_full hwh.1 hwh.2
      rw [hi]
      exact ⟨hiw, hih⟩
    · have hsame : smart_crop_gemini image [0, 0, 1, 1] = .same := by
        unfold smart_crop_gemini
        rw [if_neg (by decide), cropWindow_full]
        dsimp only
        rw [if_pos (by omega)]
      rw [hsame]
      exact ⟨rfl, rfl⟩

unseal Rat.mul Rat.add Rat.sub Rat.inv Rat.ofScientific in
theorem c6_smart_crop_safety_witness :
    cropWindow { width := 100, height := 100, mode := "RGB", pix := fun _ _ => 0 }
        [1/2, 1/2, 1/2, 1/2] = (50, 50, 50, 50) ∧
    smart_crop_gemini { width := 100, height := 100, mode := "RGB", pix := fun _ _ => 0 }
        [1/2, 1/2, 1/2, 1/2] = .same ∧
    ((smart_crop_gemini { width := 100, height := 100, mode := "RGB", pix := fun _ _ => 0 }
        [0, 0, 1, 1]).getImg
      { width := 100, height := 100, mode := "RGB", pix := fun _ _ => 0 }).width = 100 :=
  ⟨by decide,
   c6_smart_crop_safety.2.1 _ [1/2, 1/2, 1/2, 1/2] 50 50 50 50 (by decide) (by decide),
   (c6_smart_crop_safety.2.2
     { width := 100, height := 100, mode := "RGB", pix := fun _ _ => 0 }).1.trans rfl⟩

/-- C3 counterexample: a valid JSON object that is merely missing the
`caption` key does *not* produce the fixed failure-fallback triple — the code
substitutes the per-key default `"No caption generated."` instead of the
claimed `"Image analysis failed due to processing error."`. -/
theorem c3_missing_key_not_failure_triple :
    (process_with_gemini ⟨true⟩ "instagram"
        (.ok (.parsed ⟨none, some (.list [.num 0, .num 0, .num 1, .num 1]), some "#x"⟩))).1 =
      "No caption generated." ∧
    "No caption generated." ≠ "Image analysis failed due to processing error." := by
  constructor
  · rfl
  · decide

/-- C3 (amended): a non-JSON response yields the fixed failure-fallback triple
(caption `"Image analysis failed due to processing error."`, full-image
region, `"#" ++ platform`); a valid JSON object missing required keys instead
yields the per-key defaults: caption `"No caption generated."`, full-image
region, `"#" ++ platform`. -/
theorem c3_parse_failure_fallback (platform : String) :
    process_with_gemini ⟨true⟩ platform (.ok .parseFail) =
      ("Image analysis failed due to processing error.", [0, 0, 1, 1], "#" ++ platform) ∧
    process_with_gemini ⟨true⟩ platform (.ok (.parsed ⟨none, none, none⟩)) =
      ("No caption generated.", [0, 0, 1, 1], "#" ++ platform) := by
  constructor
  · rfl
  · simp only [process_with_gemini, clampList, clampCoord]
    norm_num

/-- C4 counterexample: with no model loaded, `process_with_gemini` returns
hashtags `"#ai #image"`, not `"#" ++ platform` as claimed. -/
theorem c4_unloaded_hashtags_not_platform :
    (process_with_gemini ⟨false⟩ "instagram" (.ok .parseFail)).2.2 = "#ai #image" ∧
    "#ai #image" ≠ "#instagram" := by
  constructor
  · rfl
  · decide

/-- C7: `process_image_complete` never raises past its boundary: for any
inputs it returns either a success record (`error = none`, optimized image
populated) or an error record (`error` prefixed with `"Processing failed: "`,
no optimized image, placeholder caption); and for undecodable bytes it
returns the error record whose message is `"Processing failed: "` followed by
the decode failure reason, with platform display name and registered target
size taken from the request's platform argument. -/
theorem c7_process_image_complete_total :
    (∀ (env : Env) (platform format : String) (sce : Bool) (m : Option Models)
        (resample : ResampleFn) (pid : String) (ts : Nat),
      ((process_image_complete env platform format sce m resample pid ts).result.error =
          none ∧
        ∃ u, (process_image_complete env platform format sce m resample pid
            ts).result.optimized_image = some u) ∨
      (∃ msg, (process_image_complete env platform format sce m resample pid
            ts).result.error = some ("Processing failed: " ++ msg) ∧
        (process_image_complete env platform format sce m resample pid
            ts).result.optimized_image = none ∧
        (process_image_complete env platform format sce m resample pid
            ts).result.caption_text = "Image processing failed.")) ∧
    (∀ (reason : String) (st so sc : Except String Unit)
        (loc : Except String (String × List ℚ × String))
        (platform format : String) (sce : Bool) (m : Option Models)
        (resample : ResampleFn) (pid : String) (ts : Nat) (sz : Nat × Nat),
      dictGet platform SOCIAL_MEDIA_SIZES = some sz →
      (process_image_complete ⟨.error reason, st, loc, so, sc⟩ platform format sce m
          resample pid ts).result =
        { error := some ("Processing failed: " ++ reason),
          platform := pyTitle (replace_underscores platform),
          size := sz,
          optimized_image := none,
          caption_text := "Image processing failed.",
          hashtags := "#" ++ platform,
          enhanced := false,
          smart_cropped := false }) := by
  constructor
  · intro env platform format sce m resample pid ts
    rcases env with ⟨dec, st, loc, so, sc⟩
    cases dec with
    | error e => exact .inr ⟨e, rfl, rfl, rfl⟩
    | ok image =>
      cases st with
      | error e => exact .inr ⟨e, rfl, rfl, rfl⟩
      | ok u =>
        unfold process_image_complete
        dsimp only
        rcases locateStep m loc platform with ⟨caption, bb, hashtags⟩
        rcases cropStep sce image bb with ⟨image1, smart_cropped⟩
        dsimp only
        cases optimize_for_platform resample image1 platform with
        | error e => exact .inr ⟨e, rfl, rfl, rfl⟩
        | ok image2 =>
          cases so with
          | error e => exact .inr ⟨e, rfl, rfl, rfl⟩
          | ok u2 =>
            cases sc with
            | error e => exact .inr ⟨e, rfl, rfl, rfl⟩
            | ok u3 =>
              cases dictGet platform SOCIAL_MEDIA_SIZES with
              | none => exact .inr ⟨"'" ++ platform ++ "'", rfl, rfl, rfl⟩
              | some sz => exact .inl ⟨rfl, _, rfl⟩
  · intro reason st so sc loc platform format sce m resample pid ts sz h
    have hred : (process_image_complete ⟨.error reason, st, loc, so, sc⟩ platform format
        sce m resample pid ts).result = errorRecord platform reason := rfl
    rw [hred]
    simp only [errorRecord, h]
    rfl

theorem c7_process_image_complete_total_witness :
    dictGet "instagram" SOCIAL_MEDIA_SIZES = some (1080, 1080) ∧
    (process_image_complete
        ⟨.error "cannot identify image file", .ok (), .error "", .ok (), .ok ()⟩
        "instagram" "JPEG" false none (fun _ _ _ => fun _ _ => 0) "id0" 17).result =
      { error := some ("Processing failed: " ++ "cannot identify image file"),
        platform := pyTitle (replace_underscores "instagram"),
        size := (1080, 1080),
        optimized_image := none,
        caption_text := "Image processing failed.",
        hashtags := "#" ++ "instagram",
        enhanced := false,
        smart_cropped := false } :=
  ⟨by decide,
   c7_process_image_complete_total.2 "cannot identify image file" (.ok ()) (.ok ())
     (.ok ()) (.error "") "instagram" "JPEG" false none (fun _ _ _ => fun _ _ => 0)
     "id0" 17 (1080, 1080) (by decide)⟩

/-- A successful pipeline run, given the outcomes of the three data-dependent
steps: the locate step's triple, the crop step's image/flag, and a successful
fit-to-target. -/
lemma pipeline_success {img image1 image2 : Img} {smart_cropped : Bool}
    {loc : Except String (String × List ℚ × String)} {platform format : String}
    {sce : Bool} {m : Option Models} {resample : ResampleFn} {pid : String} {ts : Nat}
    {caption hashtags : String} {bb : List ℚ} {sz : Nat × Nat}
    (hls : locateStep m loc platform = (caption, bb, hashtags))
    (hcs : cropStep sce img bb = (image1, smart_cropped))
    (hopt : optimize_for_platform resample image1 platform = .ok image2)
    (hdg : dictGet platform SOCIAL_MEDIA_SIZES = some sz) :
    process_image_complete ⟨.ok img, .ok (), loc, .ok (), .ok ()⟩ platform format sce m
        resample pid ts =
      { result :=
          { error := none,
            platform := pyTitle (replace_underscores platform),
            size := sz,
            optimized_image :=
              some ("/media/optimized/" ++ platform ++ "_" ++ pid ++ "_" ++
                    toString ts ++ "." ++ pyLower format),
            caption_text := sanitize_text caption,
            hashtags := sanitize_text hashtags,
            enhanced := false,
            smart_cropped := smart_cropped },
        savedImage := some image2,
        captionFile := some (sanitize_text caption ++ "\n\n" ++ sanitize_text hashtags) } := by
  unfold process_image_complete
  dsimp only
  rw [hls]
  dsimp only
  rw [hcs]
  dsimp only
  rw [hopt]
  dsimp only
  rw [hdg]

lemma errorRecord_size_of_none {platform msg : String}
    (h : dictGet platform SOCIAL_MEDIA_SIZES = none) :
    (errorRecord platform msg).size = (0, 0) := by
  simp only [errorRecord, h, Option.getD_none]

/-- C9: calling `process_image_complete` with a platform key absent from the
registry still returns an error record rather than raising, and that record's
`size` field is the `(0, 0)` placeholder. -/
theorem c9_unregistered_platform_error_record (env : Env) (platform format : String)
    (sce : Bool) (m : Option Models) (resample : ResampleFn) (pid : String) (ts : Nat)
    (h : dictGet platform SOCIAL_MEDIA_SIZES = none) :
    ((process_image_complete env platform format sce m resample pid
        ts).result.error).isSome ∧
    (process_image_complete env platform format sce m resample pid ts).result.size =
      (0, 0) := by
  rcases env with ⟨dec, st, loc, so, sc⟩
  cases dec with
  | error e => exact ⟨rfl, errorRecord_size_of_none h⟩
  | ok image =>
    cases st with
    | error e => exact ⟨rfl, errorRecord_size_of_none h⟩
    | ok u =>
      unfold process_image_complete
      dsimp only
      rcases locateStep m loc platform with ⟨caption, bb, hashtags⟩
      rcases cropStep sce image bb with ⟨image1, smart_cropped⟩
      dsimp only
      cases optimize_for_platform resample image1 platform with
      | error e => exact ⟨rfl, errorRecord_size_of_none h⟩
      | ok image2 =>
        cases so with
        | error e => exact ⟨rfl, errorRecord_size_of_none h⟩
        | ok u2 =>
          cases sc with
          | error e => exact ⟨rfl, errorRecord_size_of_none h⟩
          | ok u3 =>
            rw [h]
            exact ⟨rfl, errorRecord_size_of_none h⟩

theorem c9_unregistered_platform_error_record_witness :
    dictGet "Instagram" SOCIAL_MEDIA_SIZES = none ∧
    ((process_image_complete
        ⟨.ok { width := 100, height := 100, mode := "RGB", pix := fun _ _ => 0 },
         .ok (), .error "", .ok (), .ok ()⟩
        "Instagram" "JPEG" false none (fun _ _ _ => fun _ _ => 0) "id1"
        3).result.error).isSome ∧
    (process_image_complete
        ⟨.ok { width := 100, height := 100, mode := "RGB", pix := fun _ _ => 0 },
         .ok (), .error "", .ok (), .ok ()⟩
        "Instagram" "JPEG" false none (fun _ _ _ => fun _ _ => 0) "id1"
        3).result.size = (0, 0) :=
  ⟨by decide,
   c9_unregistered_platform_error_record
     ⟨.ok { width := 100, height := 100, mode := "RGB", pix := fun _ _ => 0 },
      .ok (), .error "", .ok (), .ok ()⟩
     "Instagram" "JPEG" false none (fun _ _ _ => fun _ _ => 0) "id1" 3 (by decide)⟩

unseal Rat.mul Rat.add Rat.sub Rat.inv Rat.ofScientific in
/-- C5 counterexample: the triple the pipeline substitutes when the locator
call raises (`utils.py` lines 280-284) is *not* the triple the locator itself
returns internally on failure (lines 167-170): both the caption and the
hashtags differ, on the same platform. -/
theorem c5_pipeline_fallback_differs_from_locator :
    (process_image_complete
        ⟨.ok { width := 1080, height := 1080, mode := "RGB", pix := fun _ _ => 0 },
         .ok (), .error "boom", .ok (), .ok ()⟩
        "instagram" "JPEG" false (some ⟨true⟩) (fun _ _ _ => fun _ _ => 0) "id2"
        5).result.caption_text = "An image showing scenery or objects." ∧
    (process_image_complete
        ⟨.ok { width := 1080, height := 1080, mode := "RGB", pix := fun _ _ => 0 },
         .ok (), .error "boom", .ok (), .ok ()⟩
        "instagram" "JPEG" false (some ⟨true⟩) (fun _ _ _ => fun _ _ => 0) "id2"
        5).result.hashtags = "#instagram #photo #image" ∧
    (process_with_gemini ⟨true⟩ "instagram" (.error ())).1 = "Image analysis failed." ∧
    (process_with_gemini ⟨true⟩ "instagram" (.ok .parseFail)).1 =
      "Image analysis failed due to processing error." ∧
    (process_with_gemini ⟨true⟩ "instagram" (.error ())).2.2 = "#instagram" ∧
    "An image showing scenery or objects." ≠ "Image analysis failed." ∧
    "An image showing scenery or objects." ≠
      "Image analysis failed due to processing error." ∧
    "#instagram #photo #image" ≠ "#instagram" := by
  decide

/-- C5 (amended): when the locator call raises inside
`process_image_complete`, the pipeline catches the exception and substitutes
its own fixed fallback triple — caption `"An image showing scenery or
objects."`, full-image region, `"#" ++ platform ++ " #photo #image"` (a triple
different from the one the locator returns internally on failure) — and the
run is not aborted: it completes as a success record. -/
theorem c5_locator_exception_caught (img : Img) (emsg : String)
    (platform format : String) (resample : ResampleFn) (pid : String) (ts : Nat)
    (sz : Nat × Nat) (hdg : dictGet platform SOCIAL_MEDIA_SIZES = some sz)
    (hw : 0 < img.width) (hh : 0 < img.height) :
    (process_image_complete ⟨.ok img, .ok (), .error emsg, .ok (), .ok ()⟩ platform
        format false (some ⟨true⟩) resample pid ts).result.error = none ∧
    (process_image_complete ⟨.ok img, .ok (), .error emsg, .ok (), .ok ()⟩ platform
        format false (some ⟨true⟩) resample pid ts).result.caption_text =
      "An image showing scenery or objects." ∧
    (process_image_complete ⟨.ok img, .ok (), .error emsg, .ok (), .ok ()⟩ platform
        format false (some ⟨true⟩) resample pid ts).result.hashtags =
      "#" ++ platform ++ " #photo #image" := by
  obtain ⟨htw, hth, hlow⟩ := dictGet_registry hdg
  obtain ⟨image2, hopt, _, _⟩ :=
    optimize_for_platform_ok resample img (by rw [hlow]; exact hdg) htw hth hw hh
  have hls : locateStep (some ⟨true⟩) (.error emsg) platform =
      ("An image showing scenery or objects.", [0, 0, 1, 1],
       "#" ++ platform ++ " #photo #image") := rfl
  have hcs : cropStep false img [0, 0, 1, 1] = (img, false) := rfl
  rw [pipeline_success hls hcs hopt hdg]
  refine ⟨rfl, ?_, ?_⟩
  · show sanitize_text "An image showing scenery or objects." = _
    exact sanitize_text_eq _
  · show sanitize_text ("#" ++ platform ++ " #photo #image") = _
    exact sanitize_text_eq _

theorem c5_locator_exception_caught_witness :
    dictGet "twitter" SOCIAL_MEDIA_SIZES = some (1600, 900) ∧
    ((process_image_complete
        ⟨.ok { width := 640, height := 480, mode := "RGB", pix := fun _ _ => 0 },
         .ok (), .error "APIError", .ok (), .ok ()⟩
        "twitter" "JPEG" false (some ⟨true⟩) (fun _ _ _ => fun _ _ => 0) "id3"
        9).result.error = none ∧
     (process_image_complete
        ⟨.ok { width := 640, height := 480, mode := "RGB", pix := fun _ _ => 0 },
         .ok (), .error "APIError", .ok (), .ok ()⟩
        "twitter" "JPEG" false (some ⟨true⟩) (fun _ _ _ => fun _ _ => 0) "id3"
        9).result.caption_text = "An image showing scenery or objects." ∧
     (process_image_complete
        ⟨.ok { width := 640, height := 480, mode := "RGB", pix := fun _ _ => 0 },
         .ok (), .error "APIError", .ok (), .ok ()⟩
        "twitter" "JPEG" false (some ⟨true⟩) (fun _ _ _ => fun _ _ => 0) "id3"
        9).result.hashtags = "#" ++ "twitter" ++ " #photo #image") :=
  ⟨by decide,
   c5_locator_exception_caught
     { width := 640, height := 480, mode := "RGB", pix := fun _ _ => 0 }
     "APIError" "twitter" "JPEG" (fun _ _ _ => fun _ _ => 0) "id3" 9 (1600, 900)
     (by decide) (by decide) (by decide)⟩

/-- C10: with smart cropping enabled and the full-image focus region
`(0, 0, 1, 1)` (here produced by the unloaded-model branch), the pipeline
reports `smart_cropped = true` even though the crop leaves the pixel content
and dimensions unchanged, because `smart_crop_gemini` returns a new image
object whenever its crop window is valid. -/
theorem c10_full_region_crop_reports_smart_cropped (img : Img)
    (loc : Except String (String × List ℚ × String)) (platform format : String)
    (resample : ResampleFn) (pid : String) (ts : Nat) (sz : Nat × Nat)
    (hdg : dictGet platform SOCIAL_MEDIA_SIZES = some sz)
    (hw : 0 < img.width) (hh : 0 < img.height) :
    (process_image_complete ⟨.ok img, .ok (), loc, .ok (), .ok ()⟩ platform format
        true none resample pid ts).result.error = none ∧
    (process_image_complete ⟨.ok img, .ok (), loc, .ok (), .ok ()⟩ platform format
        true none resample pid ts).result.smart_cropped = true ∧
    ∃ i, smart_crop_gemini img [0, 0, 1, 1] = .new i ∧
      i.width = img.width ∧ i.height = img.height ∧
      ∀ px py, i.pix px py = img.pix px py := by
  obtain ⟨htw, hth, hlow⟩ := dictGet_registry hdg
  obtain ⟨i, hi, hiw, hih, _, hip⟩ := smart_crop_full hw hh
  have hcs : cropStep true img [0, 0, 1, 1] = (i, true) := by
    unfold cropStep
    rw [hi]
    exact rfl
  obtain ⟨image2, hopt, _, _⟩ :=
    optimize_for_platform_ok resample i (by rw [hlow]; exact hdg) htw hth (by omega)
      (by omega)
  rw [pipeline_success rfl hcs hopt hdg]
  exact ⟨rfl, rfl, i, hi, hiw, hih, hip⟩

theorem c10_full_region_crop_reports_smart_cropped_witness :
    dictGet "pinterest" SOCIAL_MEDIA_SIZES = some (1000, 1500) ∧
    ((process_image_complete
        ⟨.ok { width := 300, height := 200, mode := "RGB", pix := fun _ _ => 0 },
         .ok (), .error "", .ok (), .ok ()⟩
        "pinterest" "PNG" true none (fun _ _ _ => fun _ _ => 0) "id4"
        11).result.error = none ∧
     (process_image_complete
        ⟨.ok { width := 300, height := 200, mode := "RGB", pix := fun _ _ => 0 },
         .ok (), .error "", .ok (), .ok ()⟩
        "pinterest" "PNG" true none (fun _ _ _ => fun _ _ => 0) "id4"
        11).result.smart_cropped = true ∧
     ∃ i, smart_crop_gemini
          { width := 300, height := 200, mode := "RGB", pix := fun _ _ => 0 }
          [0, 0, 1, 1] = .new i ∧
        i.width = 300 ∧ i.height = 200 ∧
        ∀ px py, i.pix px py = 0) := by
  refine ⟨by decide, ?_⟩
  obtain ⟨h1, h2, i, hi, hiw, hih, hip⟩ :=
    c10_full_region_crop_reports_smart_cropped
      { width := 300, height := 200, mode := "RGB", pix := fun _ _ => 0 }
      (.error "") "pinterest" "PNG" (fun _ _ _ => fun _ _ => 0) "id4" 11 (1000, 1500)
      (by decide) (by decide) (by decide)
  exact ⟨h1, h2, i, hi, hiw, hih, fun px py => hip px py⟩

lemma splitNl_ne_nil (l : List Char) : splitNl l ≠ [] := by
  cases l with
  | nil => simp [splitNl]
  | cons c cs =>
    unfold splitNl
    split_ifs
    · simp
    · cases splitNl cs <;> simp

lemma splitNl_append {l : List Char} (r : List Char) (h : '\n' ∉ l) :
    splitNl (l ++ '\n' :: r) = l :: splitNl r := by
  induction l with
  | nil =>
    simp only [List.nil_append]
    simp [splitNl]
  | cons c cs ih =>
    have hc : c ≠ '\n' := fun he => h (he ▸ List.mem_cons_self c cs)
    have hcs : '\n' ∉ cs := fun hm => h (List.mem_cons_of_mem c hm)
    simp only [List.cons_append]
    simp [splitNl, hc, ih hcs]

lemma joinNl_splitNl (l : List Char) : joinNl (splitNl l) = l := by
  induction l with
  | nil => simp [splitNl, joinNl]
  | cons c cs ih =>
    unfold splitNl
    split_ifs with hc
    · subst hc
      rcases hsp : splitNl cs with _ | ⟨x, xs⟩
      · exact absurd hsp (splitNl_ne_nil cs)
      · rw [hsp] at ih
        simpa [joinNl] using ih
    · rcases hsp : splitNl cs with _ | ⟨x, xs⟩
      · exact absurd hsp (splitNl_ne_nil cs)
      · rw [hsp] at ih
        cases xs with
        | nil => simpa [joinNl] using ih
        | cons y ys =>
          rw [show joinNl ((c :: x) :: y :: ys) = (c :: x) ++ '\n' :: joinNl (y :: ys)
              from rfl]
          rw [show joinNl (x :: y :: ys) = x ++ '\n' :: joinNl (y :: ys) from rfl] at ih
          simpa using ih

/-- Parsing the written sidecar content back (first line / blank line /
remaining lines) recovers the caption and the hashtags, provided the caption
itself contains no newline. -/
lemma parseSidecar_roundtrip {cap : String} (hsh : String) (h : '\n' ∉ cap.data) :
    parseSidecar (cap ++ "\n\n" ++ hsh) = some (cap, hsh) := by
  unfold parseSidecar
  have hdata : (cap ++ "\n\n" ++ hsh).data = cap.data ++ '\n' :: '\n' :: hsh.data := by
    simp [String.data_append]
  rw [hdata, splitNl_append _ h]
  have h2 : splitNl ('\n' :: hsh.data) = [] :: splitNl hsh.data := by
    simp [splitNl]
  rw [h2]
  dsimp only
  rw [if_pos ⟨rfl, splitNl_ne_nil _⟩, joinNl_splitNl]

unseal Rat.mul Rat.add Rat.sub Rat.inv Rat.ofScientific in
/-- C8 counterexample: a successful pipeline run whose caption contains a
newline writes a sidecar that the first-line/blank/remaining-line parse cannot
invert: the parse fails outright instead of returning the record's caption and
hashtags. -/
theorem c8_newline_caption_breaks_roundtrip :
    (process_image_complete
        ⟨.ok { width := 1080, height := 1080, mode := "RGB", pix := fun _ _ => 0 },
         .ok (), .ok ("Line one.\nLine two.", [0, 0, 1, 1], "#a #b"), .ok (), .ok ()⟩
        "instagram" "JPEG" false (some ⟨true⟩) (fun _ _ _ => fun _ _ => 0) "id5"
        13).result.error = none ∧
    (process_image_complete
        ⟨.ok { width := 1080, height := 1080, mode := "RGB", pix := fun _ _ => 0 },
         .ok (), .ok ("Line one.\nLine two.", [0, 0, 1, 1], "#a #b"), .ok (), .ok ()⟩
        "instagram" "JPEG" false (some ⟨true⟩) (fun _ _ _ => fun _ _ => 0) "id5"
        13).captionFile = some "Line one.\nLine two.\n\n#a #b" ∧
    parseSidecar "Line one.\nLine two.\n\n#a #b" = none ∧
    parseSidecar "Line one.\nLine two.\n\n#a #b" ≠
      some ((process_image_complete
          ⟨.ok { width := 1080, height := 1080, mode := "RGB", pix := fun _ _ => 0 },
           .ok (), .ok ("Line one.\nLine two.", [0, 0, 1, 1], "#a #b"), .ok (), .ok ()⟩
          "instagram" "JPEG" false (some ⟨true⟩) (fun _ _ _ => fun _ _ => 0) "id5"
          13).result.caption_text,
        (process_image_complete
          ⟨.ok { width := 1080, height := 1080, mode := "RGB", pix := fun _ _ => 0 },
           .ok (), .ok ("Line one.\nLine two.", [0, 0, 1, 1], "#a #b"), .ok (), .ok ()⟩
          "instagram" "JPEG" false (some ⟨true⟩) (fun _ _ _ => fun _ _ => 0) "id5"
          13).result.hashtags) := by
  decide

/-- C8 (amended): for every successful run whose caption contains no newline,
the caption sidecar contains exactly the caption, a blank line, then the
hashtags, and parsing it back (first line / blank / remaining lines) yields
exactly the `caption_text` and `hashtags` fields of the returned result. -/
theorem c8_sidecar_roundtrip (img : Img) (cap hsh : String) (bb : List ℚ)
    (platform format : String) (resample : ResampleFn) (pid : String) (ts : Nat)
    (sz : Nat × Nat) (hdg : dictGet platform SOCIAL_MEDIA_SIZES = some sz)
    (hw : 0 < img.width) (hh : 0 < img.height) (hcap : '\n' ∉ cap.data) :
    (process_image_complete ⟨.ok img, .ok (), .ok (cap, bb, hsh), .ok (), .ok ()⟩
        platform format false (some ⟨true⟩) resample pid ts).result.error = none ∧
    (process_image_complete ⟨.ok img, .ok (), .ok (cap, bb, hsh), .ok (), .ok ()⟩
        platform format false (some ⟨true⟩) resample pid ts).captionFile =
      some (cap ++ "\n\n" ++ hsh) ∧
    parseSidecar (cap ++ "\n\n" ++ hsh) =
      some ((process_image_complete ⟨.ok img, .ok (), .ok (cap, bb, hsh), .ok (), .ok ()⟩
          platform format false (some ⟨true⟩) resample pid ts).result.caption_text,
        (process_image_complete ⟨.ok img, .ok (), .ok (cap, bb, hsh), .ok (), .ok ()⟩
          platform format false (some ⟨true⟩) resample pid ts).result.hashtags) := by
  obtain ⟨htw, hth, hlow⟩ := dictGet_registry hdg
  obtain ⟨image2, hopt, _, _⟩ :=
    optimize_for_platform_ok resample img (by rw [hlow]; exact hdg) htw hth hw hh
  have hls : locateStep (some ⟨true⟩) (.ok (cap, bb, hsh)) platform = (cap, bb, hsh) := rfl
  have hcs : cropStep false img bb = (img, false) := rfl
  rw [pipeline_success hls hcs hopt hdg]
  refine ⟨rfl, ?_, ?_⟩
  · show some (sanitize_text cap ++ "\n\n" ++ sanitize_text hsh) = _
    rw [sanitize_text_eq, sanitize_text_eq]
  · show _ = some (sanitize_text cap, sanitize_text hsh)
    rw [sanitize_text_eq, sanitize_text_eq, parseSidecar_roundtrip hsh hcap]

theorem c8_sidecar_roundtrip_witness :
    dictGet "linkedin" SOCIAL_MEDIA_SIZES = some (1200, 627) ∧
    ¬ '\n' ∈ ("A city at dusk." : String).data ∧
    ((process_image_complete
        ⟨.ok { width := 1200, height := 900, mode := "RGB", pix := fun _ _ => 0 },
         .ok (), .ok ("A city at dusk.", [0, 0, 1, 1], "#city #dusk"), .ok (), .ok ()⟩
        "linkedin" "JPEG" false (some ⟨true⟩) (fun _ _ _ => fun _ _ => 0) "id6"
        21).result.error = none ∧
     (process_image_complete
        ⟨.ok { width := 1200, height := 900, mode := "RGB", pix := fun _ _ => 0 },
         .ok (), .ok ("A city at dusk.", [0, 0, 1, 1], "#city #dusk"), .ok (), .ok ()⟩
        "linkedin" "JPEG" false (some ⟨true⟩) (fun _ _ _ => fun _ _ => 0) "id6"
        21).captionFile = some ("A city at dusk." ++ "\n\n" ++ "#city #dusk") ∧
     parseSidecar ("A city at dusk." ++ "\n\n" ++ "#city #dusk") =
       some ((process_image_complete
           ⟨.ok { width := 1200, height := 900, mode := "RGB", pix := fun _ _ => 0 },
            .ok (), .ok ("A city at dusk.", [0, 0, 1, 1], "#city #dusk"), .ok (), .ok ()⟩
           "linkedin" "JPEG" false (some ⟨true⟩) (fun _ _ _ => fun _ _ => 0) "id6"
           21).result.caption_text,
         (process_image_complete
           ⟨.ok { width := 1200, height := 900, mode := "RGB", pix := fun _ _ => 0 },
            .ok (), .ok ("A city at dusk.", [0, 0, 1, 1], "#city #dusk"), .ok (), .ok ()⟩
           "linkedin" "JPEG" false (some ⟨true⟩) (fun _ _ _ => fun _ _ => 0) "id6"
           21).result.hashtags)) :=
  ⟨by decide, by decide,
   c8_sidecar_roundtrip
     { width := 1200, height := 900, mode := "RGB", pix := fun _ _ => 0 }
     "A city at dusk." "#city #dusk" [0, 0, 1, 1] "linkedin" "JPEG"
     (fun _ _ _ => fun _ _ => 0) "id6" 21 (1200, 627) (by decide) (by decide)
     (by decide) (by decide)⟩

/-- C4 (amended): if no external model is loaded, `process_with_gemini`
returns immediately and deterministically, for any response and any platform,
the fixed triple: the "not loaded" caption, the full-image region
`(0, 0, 1, 1)`, and the fixed hashtags `"#ai #image"`. -/
theorem c4_unloaded_deterministic (platform : String)
    (response : Except Unit GeminiResponse) :
    process_with_gemini ⟨false⟩ platform response =
      ("No caption could be generated. Gemini model not loaded.", [0, 0, 1, 1],
       "#ai #image") := rfl
